import Mathlib

/-!
# IPC debugger client: dashboard and visualization

A shallow embedding of the two browser scripts of the IPC debugger,
`ipc-debugger/frontend/js/dashboard.js` and `docs/js/visualization.js`.

Each script keeps its model in module-level variables (`currentSimulation`,
`processes`, `channels`, ...).  Here every handler is a pure function from the
model before the call, the values it reads from the page, and the outcome of
the requests it awaits, to the model after the call together with the list of
effects it performed (requests, toasts, renders), in program order.

Conventions:
* an awaited `apiRequest` either throws or resolves to a response object
  (`ApiResult`); responses are objects of the shape the script reads;
* a value produced by `parseInt` is a `JSNum`: `none` is `NaN`;
* ids are integers, names and process states are strings, as on the wire.
-/

namespace IpcDebugger

/-- Outcome of an awaited `apiRequest`: the promise rejects or resolves. -/
inductive ApiResult (α : Type) where
  | threw : ApiResult α
  | ok (response : α) : ApiResult α
  deriving Repr, DecidableEq

/-- Number produced by `parseInt`; `none` stands for `NaN`. -/
abbrev JSNum := Option Int

/-- Truthiness of a number: `NaN` and `0` are falsy. -/
def numTruthy : JSNum → Bool
  | none => false
  | some n => n != 0

/-- Strict equality `===` of two numbers: `NaN` equals nothing. -/
def strictEq : JSNum → JSNum → Bool
  | some a, some b => a == b
  | _, _ => false

/-- Simulation object as sent by the server. -/
structure Simulation where
  id : Int
  name : String
  status : Option String
  deriving Repr, DecidableEq

/-- Process object as sent by the server. -/
structure Process where
  id : Int
  process_name : String
  state : String
  priority : Int
  deriving Repr, DecidableEq

/-- Channel object as sent by the server. -/
structure Channel where
  id : Int
  ipc_type : String
  sender_id : Int
  receiver_id : Int
  sender_name : String
  receiver_name : String
  deriving Repr, DecidableEq

namespace Dashboard

/-- Module state of dashboard.js, with the `currentSimulationId` item of
localStorage. -/
structure Model where
  currentSimulation : Option Simulation
  processes : List Process
  channels : List Channel
  storedSimulationId : Option Int
  deriving Repr, DecidableEq

/-- Requests the dashboard sends through `apiRequest`. -/
inductive Request where
  | createSimulation (name : String)
  | deleteSimulation (id : Int)
  | createChannel (simulation_id : Int) (type : String) (sender_id receiver_id : JSNum)
  | sendMessage (channel_id : JSNum) (content : String)
  | deleteProcess (processId : Int)
  | deleteChannel (channelId : Int)
  | statistics (id : Int)
  deriving Repr, DecidableEq

/-- Toasts the dashboard shows, one constructor per message template. -/
inductive Notice where
  | simulationCreated
  | createSimulationFailed
  | needSimulation
  | selectSenderReceiver
  | senderReceiverSame
  | channelCreated
  | createChannelFailed
  | selectChannelAndMessage
  | messageSent (delay_ms : Int)
  | sendMessageFailed
  | processDeleted
  | processDeletedWithChannels (deletedChannels : Int)
  | deleteProcessFailed
  | channelDeleted
  | deleteChannelFailed
  deriving Repr, DecidableEq

/-- Text of a toast. -/
def Notice.text : Notice → String
  | .simulationCreated => "Simulation created successfully"
  | .createSimulationFailed => "Failed to create simulation"
  | .needSimulation => "Please create a simulation first"
  | .selectSenderReceiver => "Please select both sender and receiver"
  | .senderReceiverSame => "Sender and receiver must be different"
  | .channelCreated => "Channel created successfully"
  | .createChannelFailed => "Failed to create channel"
  | .selectChannelAndMessage => "Please select channel and enter message"
  | .messageSent d => "Message sent (" ++ toString d ++ "ms delay)"
  | .sendMessageFailed => "Failed to send message"
  | .processDeleted => "Process deleted"
  | .processDeletedWithChannels n =>
      "Process deleted (" ++ toString n ++ " channel" ++ (if n > 1 then "s" else "")
        ++ " also removed)"
  | .deleteProcessFailed => "Failed to delete process"
  | .channelDeleted => "Channel deleted"
  | .deleteChannelFailed => "Failed to delete channel"

/-- Severity class of a toast. -/
def Notice.kind : Notice → String
  | .simulationCreated | .channelCreated | .messageSent _ => "success"
  | .createSimulationFailed | .createChannelFailed | .sendMessageFailed
  | .deleteProcessFailed | .deleteChannelFailed => "error"
  | .needSimulation | .selectSenderReceiver | .senderReceiverSame
  | .selectChannelAndMessage => "warning"
  | .processDeleted | .processDeletedWithChannels _ | .channelDeleted => "info"

/-- Observable actions of a handler, in program order. -/
inductive Effect where
  | request (r : Request)
  | toast (n : Notice)
  | render
  | log (text : String)
  deriving Repr, DecidableEq

/-- The requests among a list of effects. -/
def requestsOf : List Effect → List Request
  | [] => []
  | .request r :: rest => r :: requestsOf rest
  | _ :: rest => requestsOf rest

/-- The toasts among a list of effects. -/
def toastsOf : List Effect → List Notice
  | [] => []
  | .toast n :: rest => n :: toastsOf rest
  | _ :: rest => toastsOf rest

/-- Script function `updateStatistics`: asks for the statistics of the current
simulation; the response is only written to the page. -/
def updateStatistics (m : Model) : List Effect :=
  match m.currentSimulation with
  | none => []
  | some sim => [.request (.statistics sim.id)]

/-- Script function `updateDashboard`: redraws the lists and selects from the
model and refreshes the statistics. -/
def updateDashboard (m : Model) : List Effect :=
  .render :: updateStatistics m

/-- Response of `POST /simulation/create`. -/
structure CreateSimulationResponse where
  success : Bool
  simulation : Simulation
  deriving Repr, DecidableEq

/-- Script function `createNewSimulation(name = null)`; `today` is the date
part of the current ISO timestamp. -/
def createNewSimulation (m : Model) (name : Option String) (today : String)
    (create : ApiResult CreateSimulationResponse) : Model × List Effect :=
  let simName :=
    match name with
    | none => "Simulation_" ++ today
    | some n => if n = "" then "Simulation_" ++ today else n
  match create with
  | .threw => (m, [.request (.createSimulation simName), .toast .createSimulationFailed])
  | .ok response =>
    if response.success then
      let m1 : Model :=
        { currentSimulation := some response.simulation
          processes := []
          channels := []
          storedSimulationId := some response.simulation.id }
      (m1, [.request (.createSimulation simName), .toast .simulationCreated]
            ++ updateDashboard m1)
    else (m, [.request (.createSimulation simName)])

/-- Script function `resetSimulation`; `confirmed` is the answer to the
confirm dialog, `del` and `create` are the outcomes of the two requests. -/
def resetSimulation (m : Model) (confirmed : Bool) (today : String)
    (del : ApiResult Unit) (create : ApiResult CreateSimulationResponse) :
    Model × List Effect :=
  if confirmed then
    let deleted : List Effect :=
      match m.currentSimulation with
      | none => []
      | some sim =>
        match del with
        | .threw => [.request (.deleteSimulation sim.id), .log "Error deleting simulation"]
        | .ok _ => [.request (.deleteSimulation sim.id)]
    let m1 : Model :=
      { currentSimulation := none
        processes := []
        channels := []
        storedSimulationId := none }
    let r := createNewSimulation m1 none today create
    (r.1, deleted ++ r.2)
  else (m, [])

/-- Values `handleCreateChannel` reads from the channel form; the two ids are
the results of `parseInt` on the selected option values. -/
structure ChannelForm where
  ipcType : String
  senderId : JSNum
  receiverId : JSNum
  deriving Repr, DecidableEq

/-- Response of `POST /ipc/create`. -/
structure CreateChannelResponse where
  success : Bool
  channel : Channel
  deriving Repr, DecidableEq

/-- Script function `handleCreateChannel`. -/
def handleCreateChannel (m : Model) (form : ChannelForm)
    (res : ApiResult CreateChannelResponse) : Model × List Effect :=
  match m.currentSimulation with
  | none => (m, [.toast .needSimulation])
  | some sim =>
    if !numTruthy form.senderId || !numTruthy form.receiverId then
      (m, [.toast .selectSenderReceiver])
    else if strictEq form.senderId form.receiverId then
      (m, [.toast .senderReceiverSame])
    else
      let req := Effect.request
        (.createChannel sim.id form.ipcType form.senderId form.receiverId)
      match res with
      | .threw => (m, [req, .toast .createChannelFailed])
      | .ok response =>
        if response.success then
          let m1 : Model := { m with channels := m.channels ++ [response.channel] }
          (m1, req :: updateDashboard m1 ++ [.toast .channelCreated])
        else (m, [req])

/-- Values `handleSendMessage` reads from the message form: the parsed channel
id and the text of the content field. -/
structure SendForm where
  messageChannel : JSNum
  messageContent : String
  deriving Repr, DecidableEq

/-- Response of `POST /ipc/send`. -/
structure SendResponse where
  success : Bool
  delay_ms : Int
  deriving Repr, DecidableEq

/-- Script function `handleSendMessage`: returns the form after the call and
the effects. -/
def handleSendMessage (m : Model) (form : SendForm) (res : ApiResult SendResponse) :
    SendForm × List Effect :=
  if !numTruthy form.messageChannel || form.messageContent == "" then
    (form, [.toast .selectChannelAndMessage])
  else
    let req := Effect.request (.sendMessage form.messageChannel form.messageContent)
    match res with
    | .threw => (form, [req, .toast .sendMessageFailed])
    | .ok response =>
      if response.success then
        ({ form with messageContent := "" },
          [req, .toast (.messageSent response.delay_ms)] ++ updateStatistics m)
      else (form, [req])

/-- Response of `DELETE /process/:id`; `deleted_channels` may be absent. -/
structure DeleteProcessResponse where
  deleted_channels : Option Int
  deriving Repr, DecidableEq

/-- Script function `deleteProcess(processId)`. -/
def deleteProcess (m : Model) (processId : Int) (confirmed : Bool)
    (res : ApiResult DeleteProcessResponse) : Model × List Effect :=
  if !confirmed then (m, [])
  else
    match res with
    | .threw => (m, [.request (.deleteProcess processId), .toast .deleteProcessFailed])
    | .ok response =>
      let m1 : Model :=
        { m with
          processes := m.processes.filter (fun p => p.id != processId)
          channels := m.channels.filter
            (fun c => c.sender_id != processId && c.receiver_id != processId) }
      let deletedChannels : Int := response.deleted_channels.getD 0
      let note : Notice :=
        if deletedChannels > 0 then .processDeletedWithChannels deletedChannels
        else .processDeleted
      (m1, .request (.deleteProcess processId) :: updateDashboard m1 ++ [.toast note])

/-- Script function `deleteChannel(channelId)`. -/
def deleteChannel (m : Model) (channelId : Int) (confirmed : Bool)
    (res : ApiResult Unit) : Model × List Effect :=
  if !confirmed then (m, [])
  else
    match res with
    | .threw => (m, [.request (.deleteChannel channelId), .toast .deleteChannelFailed])
    | .ok _ =>
      let m1 : Model := { m with channels := m.channels.filter (fun c => c.id != channelId) }
      (m1, .request (.deleteChannel channelId) :: updateDashboard m1 ++ [.toast .channelDeleted])

/-- Value of a property read `object[key]`: a string of the script, or a
member every object inherits from `Object.prototype` (a function, or for
`__proto__` the prototype object itself). -/
inductive JSValue where
  | str (s : String)
  | inherited (key : String)
  deriving Repr, DecidableEq

/-- Truthiness of a value: only the empty string is falsy here. -/
def JSValue.truthy : JSValue → Bool
  | .str s => s != ""
  | .inherited _ => true

/-- Property names an object literal inherits from `Object.prototype` in a
browser. -/
def objectPrototypeKeys : List String :=
  ["constructor", "hasOwnProperty", "isPrototypeOf", "propertyIsEnumerable", "toString",
   "toLocaleString", "valueOf", "__proto__", "__defineGetter__", "__defineSetter__",
   "__lookupGetter__", "__lookupSetter__"]

/-- Property read `object[key]` on an object literal with the given own string
properties: own properties first, then the inherited ones; `none` is
`undefined`. -/
def getProperty (own : List (String × String)) (key : String) : Option JSValue :=
  match own.lookup key with
  | some s => some (.str s)
  | none => if key ∈ objectPrototypeKeys then some (.inherited key) else none

/-- The object literal `classes` of `getStateBadgeClass`. -/
def classes : List (String × String) :=
  [("ready", "info"), ("running", "success"), ("waiting", "warning"), ("blocked", "error"),
   ("terminated", "secondary")]

/-- Script function `getStateBadgeClass(state)`: `classes[state] || 'secondary'`. -/
def getStateBadgeClass (state : String) : JSValue :=
  match getProperty classes state with
  | some v => if v.truthy then v else .str "secondary"
  | none => .str "secondary"

/-- Every local channel has a sender_id and a receiver_id that are ids of
local processes. -/
def channelsReferToProcesses (m : Model) : Prop :=
  ∀ c ∈ m.channels,
    (∃ p ∈ m.processes, p.id = c.sender_id) ∧ (∃ p ∈ m.processes, p.id = c.receiver_id)

end Dashboard

namespace Visualization

/-- Entry of a bottleneck analysis, also the payload of a
`bottleneck_detected` event; fields may be absent. -/
structure BottleneckData where
  process_name : Option String
  avg_delay : Option ℚ
  message_count : Option Int
  is_bottleneck : Bool
  deriving Repr, DecidableEq

/-- Alerts appended to the alerts container; a bottleneck alert is kept as the
record and the time its text is built from. -/
inductive Alert where
  | deadlock (cycle : String) (processesInvolved : String) (time : String)
  | bottleneck (data : BottleneckData) (time : String)
  deriving Repr, DecidableEq

/-- Child element of the `liveEvents` container; `secondary` records whether
`querySelector('.text-secondary')` finds a match in it, as it does in the
placeholder paragraph of the page. -/
structure Child where
  className : String
  html : String
  secondary : Bool
  deriving Repr, DecidableEq

/-- Module state of visualization.js with the two page containers it fills. -/
structure Model where
  processes : List Process
  channels : List Channel
  currentSimulationId : Option Int
  alerts : List Alert
  liveEvents : List Child
  deriving Repr, DecidableEq

/-- Requests the visualization sends through `apiRequest`. -/
inductive Request where
  | simulation (id : Int)
  | statistics (id : Int)
  | deadlockDetect (id : Int)
  | bottleneckAnalyze (id : Int)
  deriving Repr, DecidableEq

/-- Observable actions of a handler, in program order. -/
inductive Effect where
  | request (r : Request)
  | toast (message : String) (kind : String)
  deriving Repr, DecidableEq

/-- The idiom `const x = xs.find(test); if (x) { x.field = ... }`: the first
element passing `test` is replaced by its update, the others stay. -/
def updateFirst (test : Process → Bool) (f : Process → Process) :
    List Process → List Process
  | [] => []
  | p :: rest => if test p then f p :: rest else p :: updateFirst test f rest

/-- Script function `updateProcessState(processId, state)`. -/
def updateProcessState (processes : List Process) (processId : Int) (state : String) :
    List Process :=
  updateFirst (fun p => p.id == processId) (fun p => { p with state := state }) processes

/-- Body of the `forEach` in `showDeadlockAlert`: the first process called
`processName`, if any, becomes blocked. -/
def markBlocked (processes : List Process) (processName : String) : List Process :=
  updateFirst (fun p => p.process_name == processName)
    (fun p => { p with state := "blocked" }) processes

/-- Payload of a deadlock report (response of the detection request or
`deadlock_detected` event). -/
structure DeadlockReport where
  deadlock_found : Bool
  cycle : Option (List String)
  processes_involved : Option String
  deriving Repr, DecidableEq

/-- Script function `showDeadlockAlert(data)`; `now` is the local time text. -/
def showDeadlockAlert (v : Model) (data : DeadlockReport) (now : String) : Model :=
  let cycleText :=
    match data.cycle with
    | some cycle => " → ".intercalate cycle
    | none => "Unknown"
  let involved :=
    match data.processes_involved with
    | some t => if t = "" then "N/A" else t
    | none => "N/A"
  let v1 : Model := { v with alerts := v.alerts ++ [.deadlock cycleText involved now] }
  match data.cycle with
  | some cycle => { v1 with processes := cycle.foldl markBlocked v1.processes }
  | none => v1

/-- Script function `detectDeadlock`. -/
def detectDeadlock (v : Model) (now : String) (res : ApiResult DeadlockReport) :
    Model × List Effect :=
  match v.currentSimulationId with
  | none => (v, [])
  | some id =>
    match res with
    | .threw => (v, [.request (.deadlockDetect id), .toast "Failed to detect deadlock" "error"])
    | .ok response =>
      if response.deadlock_found then
        (showDeadlockAlert v response now, [.request (.deadlockDetect id)])
      else (v, [.request (.deadlockDetect id), .toast "No deadlock detected" "success"])

/-- The loop `while (container.children.length > 20) removeChild(lastChild)`. -/
def keepLastEvents (children : List Child) : List Child :=
  if 20 < children.length then keepLastEvents children.dropLast else children
termination_by children.length
decreasing_by simp_wf; omega

/-- Element built by `addLiveEvent` for a message; `sel` tells whether a piece
of markup contains an element of class `text-secondary`. -/
def eventItem (sel : String → Bool) (message now : String) : Child :=
  let html := "\n        <div class=\"event-timestamp\">" ++ now
    ++ "</div>\n        <div class=\"event-message\">" ++ message ++ "</div>\n    "
  { className := "event-item fade-in", html := html, secondary := sel html }

/-- Script function `addLiveEvent(message)` on the children of the container. -/
def addLiveEvent (sel : String → Bool) (children : List Child) (message now : String) :
    List Child :=
  let kept := if children.any (fun c => c.secondary) then [] else children
  keepLastEvents (eventItem sel message now :: kept)

/-- Script function `showBottleneckAlert(data)`. -/
def showBottleneckAlert (v : Model) (data : BottleneckData) (now : String) : Model :=
  { v with alerts := v.alerts ++ [.bottleneck data now] }

/-- Response of the bottleneck analysis request; `process_analysis` may be
absent. -/
structure BottleneckResponse where
  process_analysis : Option (List BottleneckData)
  deriving Repr, DecidableEq

/-- Script function `analyzeBottleneck`. -/
def analyzeBottleneck (v : Model) (now : String) (res : ApiResult BottleneckResponse) :
    Model × List Effect :=
  match v.currentSimulationId with
  | none => (v, [])
  | some id =>
    match res with
    | .threw =>
      (v, [.request (.bottleneckAnalyze id), .toast "Failed to analyze bottleneck" "error"])
    | .ok response =>
      match response.process_analysis with
      | none =>
        (v, [.request (.bottleneckAnalyze id), .toast "No bottleneck analysis available" "info"])
      | some analysis =>
        if 0 < analysis.length then
          let bottlenecks := analysis.filter (fun p => p.is_bottleneck)
          match bottlenecks with
          | first :: _ => (showBottleneckAlert v first now, [.request (.bottleneckAnalyze id)])
          | [] =>
            (v, [.request (.bottleneckAnalyze id), .toast "No bottlenecks detected" "success"])
        else
          (v, [.request (.bottleneckAnalyze id),
               .toast "No bottleneck analysis available" "info"])

/-- In-flight message animation; `progress` runs from 0 to 1 and is held as an
exact number. -/
structure Message where
  startX : ℚ
  startY : ℚ
  endX : ℚ
  endY : ℚ
  progress : ℚ
  deriving Repr, DecidableEq

/-- Drawing operations of one frame, in program order; positions are given by
the index of the process in the local list. -/
inductive Draw where
  | clear
  | noProcesses
  | arrow (sender receiver : Nat) (ipcType : String)
  | node (index : Nat) (process : Process)
  | message (msg : Message)
  deriving Repr, DecidableEq

/-- The loop `messages.forEach((msg, index) => ...)` of `drawCanvas`, from
index `k` with `steps` indices still to visit. `forEach` visits the indices
below the length the array had at the start and skips an index that is no
longer in the array; the callback advances an unfinished message in place and
removes a finished one with `messages.splice(index, 1)`. -/
def drawMessagesFrom : Nat → Nat → List Message → List Message × List Draw
  | 0, _, messages => (messages, [])
  | steps + 1, k, messages =>
    match messages[k]? with
    | none => drawMessagesFrom steps (k + 1) messages
    | some msg =>
      if msg.progress < 1 then
        let r := drawMessagesFrom steps (k + 1)
          (messages.set k { msg with progress := msg.progress + 2 / 100 })
        (r.1, .message msg :: r.2)
      else drawMessagesFrom steps (k + 1) (messages.eraseIdx k)

/-- Script function `drawCanvas`: the messages after the frame and what was
drawn. -/
def drawCanvas (processes : List Process) (channels : List Channel)
    (messages : List Message) : List Message × List Draw :=
  if processes.length = 0 then (messages, [.clear, .noProcesses])
  else
    let arrows : List Draw := channels.filterMap (fun channel =>
      match processes.findIdx? (fun p => p.id == channel.sender_id),
            processes.findIdx? (fun p => p.id == channel.receiver_id) with
      | some s, some r => some (.arrow s r channel.ipc_type)
      | _, _ => none)
    let nodes : List Draw := processes.enum.map (fun ip => .node ip.1 ip.2)
    let r := drawMessagesFrom messages.length 0 messages
    (r.1, .clear :: arrows ++ nodes ++ r.2)

end Visualization

end IpcDebugger

/-! ## Dashboard: deleting a process -/

namespace IpcDebugger

namespace Dashboard

/-- C1: after a confirmed `deleteProcess(processId)` whose request resolves,
the local channels are the previous channels without those whose sender_id or
receiver_id is `processId` (the others kept in order), and the local processes
are the previous processes without those whose id is `processId`. -/
theorem deleteProcess_cascades (m : Model) (processId : Int) (response : DeleteProcessResponse) :
    (deleteProcess m processId true (.ok response)).1.channels
        = m.channels.filter
            (fun c => decide (¬ (c.sender_id = processId ∨ c.receiver_id = processId)))
      ∧ (deleteProcess m processId true (.ok response)).1.processes
        = m.processes.filter (fun p => decide (p.id ≠ processId)) := by
  constructor
  · simp only [deleteProcess]
    apply List.filter_congr
    intro c _
    by_cases h1 : c.sender_id = processId <;> by_cases h2 : c.receiver_id = processId <;>
      simp [h1, h2]
  · simp only [deleteProcess]
    apply List.filter_congr
    intro p _
    by_cases h : p.id = processId <;> simp [h]

/-! ## Dashboard: resetting the simulation -/

/-- C4 (as stated, refuted): a confirmed reset of simulation 1, answered by
the server with a fresh simulation 2, leaves the client on id 2, not on the
id the simulation had before. -/
theorem resetSimulation_id_not_kept :
    (resetSimulation
        { currentSimulation := some { id := 1, name := "Simulation_2024-01-01", status := none }
          processes := []
          channels := []
          storedSimulationId := some 1 }
        true "2024-01-02" (.ok ())
        (.ok { success := true
               simulation := { id := 2, name := "Simulation_2024-01-02", status := none } })).1
      = { currentSimulation := some { id := 2, name := "Simulation_2024-01-02", status := none }
          processes := []
          channels := []
          storedSimulationId := some 2 } := by
  rfl

/-- C4 (amended): a confirmed `resetSimulation` forgets the current simulation
and adopts what the create request returns: when the request resolves with
success, `currentSimulation` is the returned simulation and the stored id is
its id; when it resolves without success or throws, both are empty. The
outcome of the delete request plays no part. -/
theorem resetSimulation_adopts_created (m : Model) (today : String) (del : ApiResult Unit) :
    (∀ response : CreateSimulationResponse,
        (resetSimulation m true today del (.ok response)).1.currentSimulation
            = (if response.success then some response.simulation else none)
          ∧ (resetSimulation m true today del (.ok response)).1.storedSimulationId
            = (if response.success then some response.simulation.id else none))
      ∧ (resetSimulation m true today del .threw).1.currentSimulation = none
      ∧ (resetSimulation m true today del .threw).1.storedSimulationId = none := by
  refine ⟨fun response => ?_, rfl, rfl⟩
  cases hs : response.success <;> simp [resetSimulation, createNewSimulation, hs]

/-- C5: after a confirmed `resetSimulation` the local processes and channels
are empty whatever the delete and create requests do; when the user declines,
the model is unchanged and nothing is done. -/
theorem resetSimulation_clears_model (m : Model) (today : String) (del : ApiResult Unit)
    (create : ApiResult CreateSimulationResponse) :
    (resetSimulation m true today del create).1.processes = []
      ∧ (resetSimulation m true today del create).1.channels = []
      ∧ resetSimulation m false today del create = (m, []) := by
  refine ⟨?_, ?_, rfl⟩
  · cases create with
    | threw => rfl
    | ok response => cases hs : response.success <;> simp [resetSimulation, createNewSimulation, hs]
  · cases create with
    | threw => rfl
    | ok response => cases hs : response.success <;> simp [resetSimulation, createNewSimulation, hs]

/-! ## Dashboard: creating a channel, sending a message -/

/-- C6: when the parsed sender id equals the parsed receiver id, or either of
them is missing (NaN or 0), `handleCreateChannel` issues no request and leaves
the model, so the local channels list, unchanged. -/
theorem handleCreateChannel_rejects (m : Model) (form : ChannelForm)
    (res : ApiResult CreateChannelResponse)
    (h : form.senderId = form.receiverId
      ∨ form.senderId = none ∨ form.senderId = some 0
      ∨ form.receiverId = none ∨ form.receiverId = some 0) :
    requestsOf (handleCreateChannel m form res).2 = []
      ∧ (handleCreateChannel m form res).1.channels = m.channels
      ∧ (handleCreateChannel m form res).1 = m := by
  obtain ⟨ipcType, senderId, receiverId⟩ := form
  simp only at h
  have key : (!numTruthy senderId || !numTruthy receiverId) = true
      ∨ strictEq senderId receiverId = true := by
    cases senderId with
    | none => left; simp [numTruthy]
    | some a =>
      cases receiverId with
      | none => left; simp [numTruthy]
      | some b =>
        by_cases ha : a = 0
        · left; simp [numTruthy, ha]
        · by_cases hb : b = 0
          · left; simp [numTruthy, hb]
          · right
            rcases h with h | h | h | h | h
            · simpa [strictEq] using h
            · simp at h
            · exact absurd (Option.some.inj h) ha
            · simp at h
            · exact absurd (Option.some.inj h) hb
  unfold handleCreateChannel
  cases m.currentSimulation with
  | none => simp [requestsOf]
  | some sim =>
    simp only
    by_cases h1 : (!numTruthy senderId || !numTruthy receiverId) = true
    · simp [h1, requestsOf]
    · have h2 : strictEq senderId receiverId = true := key.resolve_left h1
      simp [h1, h2, requestsOf]

/-- C6 at a concrete form: sender and receiver both process 3. -/
theorem handleCreateChannel_rejects_witness :
    requestsOf (handleCreateChannel
        { currentSimulation := some { id := 1, name := "S", status := none }
          processes := []
          channels := []
          storedSimulationId := some 1 }
        { ipcType := "pipe", senderId := some 3, receiverId := some 3 } .threw).2 = []
      ∧ (handleCreateChannel
        { currentSimulation := some { id := 1, name := "S", status := none }
          processes := []
          channels := []
          storedSimulationId := some 1 }
        { ipcType := "pipe", senderId := some 3, receiverId := some 3 } .threw).1.channels = []
      ∧ (handleCreateChannel
        { currentSimulation := some { id := 1, name := "S", status := none }
          processes := []
          channels := []
          storedSimulationId := some 1 }
        { ipcType := "pipe", senderId := some 3, receiverId := some 3 } .threw).1
        = { currentSimulation := some { id := 1, name := "S", status := none }
            processes := []
            channels := []
            storedSimulationId := some 1 } :=
  handleCreateChannel_rejects _ _ _ (Or.inl rfl)

/-- C7 (as stated, refuted): with no local channel at all and a server response
carrying `deleted_channels: 5`, `deleteProcess(1)` tells the user that 5
channels were removed, while it removes none from the local list. -/
theorem deleteProcess_report_not_local_count :
    toastsOf (deleteProcess
        { currentSimulation := none, processes := [], channels := [], storedSimulationId := none }
        1 true (.ok { deleted_channels := some 5 })).2
      = [Notice.processDeletedWithChannels 5]
      ∧ (([] : List Channel).filter
          (fun c => decide (c.sender_id = 1 ∨ c.receiver_id = 1))).length = 0 := by
  constructor
  · rfl
  · rfl

/-- C7 (amended): the count `deleteProcess` reports is the `deleted_channels`
of the server response, 0 when absent: it shows the count when it is positive
and the plain message otherwise, whatever the local channels are. The number
of channels it removes from the local list is the number of local channels
with `processId` as sender_id or receiver_id. -/
theorem deleteProcess_reports_server_count (m : Model) (processId : Int)
    (response : DeleteProcessResponse) :
    toastsOf (deleteProcess m processId true (.ok response)).2
        = [if response.deleted_channels.getD 0 > 0
            then Notice.processDeletedWithChannels (response.deleted_channels.getD 0)
            else Notice.processDeleted]
      ∧ m.channels.length
        = (deleteProcess m processId true (.ok response)).1.channels.length
          + (m.channels.filter
              (fun c => decide (c.sender_id = processId ∨ c.receiver_id = processId))).length := by
  constructor
  · simp only [deleteProcess, updateDashboard, updateStatistics]
    cases m.currentSimulation <;> simp [toastsOf]
  · simp only [deleteProcess]
    generalize m.channels = cs
    induction cs with
    | nil => rfl
    | cons c cs ih =>
      by_cases h1 : c.sender_id = processId <;> by_cases h2 : c.receiver_id = processId <;>
        simp [List.filter_cons, h1, h2] at ih ⊢ <;> omega

/-- C10: `handleSendMessage` issues the send request exactly when the parsed
channel id is a non-zero number and the content is non-empty; otherwise it
issues no request and leaves the form, so the content field, unchanged. -/
theorem handleSendMessage_validates (m : Model) (form : SendForm) (res : ApiResult SendResponse) :
    (Request.sendMessage form.messageChannel form.messageContent
          ∈ requestsOf (handleSendMessage m form res).2
        ↔ (∃ n : Int, form.messageChannel = some n ∧ n ≠ 0) ∧ form.messageContent ≠ "")
      ∧ (¬ ((∃ n : Int, form.messageChannel = some n ∧ n ≠ 0) ∧ form.messageContent ≠ "")
          → requestsOf (handleSendMessage m form res).2 = []
            ∧ (handleSendMessage m form res).1 = form) := by
  obtain ⟨channel, content⟩ := form
  have hc : numTruthy channel = true ↔ ∃ n : Int, channel = some n ∧ n ≠ 0 := by
    cases channel with
    | none => simp [numTruthy]
    | some a => simp [numTruthy]
  by_cases hv : (∃ n : Int, channel = some n ∧ n ≠ 0) ∧ content ≠ ""
  · have h1 : numTruthy channel = true := hc.mpr hv.1
    have h2 : content ≠ "" := hv.2
    refine ⟨⟨fun _ => hv, fun _ => ?_⟩, fun hn => absurd hv hn⟩
    cases res with
    | threw => simp [handleSendMessage, h1, h2, requestsOf]
    | ok response =>
      cases hs : response.success <;> simp [handleSendMessage, h1, h2, hs, requestsOf]
  · have h3 : (!numTruthy channel || content == "") = true := by
      by_cases h1 : numTruthy channel = true
      · have : content = "" := by
          by_contra hne
          exact hv ⟨hc.mp h1, hne⟩
        simp [this]
      · simp [h1]
    refine ⟨⟨fun hmem => ?_, fun h => absurd h hv⟩, fun _ => ?_⟩
    · simp [handleSendMessage, h3, requestsOf] at hmem
    · simp [handleSendMessage, h3, requestsOf]

/-! ## Dashboard: referential integrity, state badges -/

/-- C12: when every local channel has a sender_id and a receiver_id that are
ids of local processes, the same holds after `deleteProcess(processId)` and
after `deleteChannel(channelId)`, for every id, answer to the confirm dialog
and outcome of the request. -/
theorem deletion_keeps_references (m : Model) (h : channelsReferToProcesses m) :
    (∀ (processId : Int) (confirmed : Bool) (res : ApiResult DeleteProcessResponse),
        channelsReferToProcesses (deleteProcess m processId confirmed res).1)
      ∧ (∀ (channelId : Int) (confirmed : Bool) (res : ApiResult Unit),
        channelsReferToProcesses (deleteChannel m channelId confirmed res).1) := by
  constructor
  · intro processId confirmed res
    cases confirmed with
    | false => simpa [deleteProcess] using h
    | true =>
      cases res with
      | threw => simpa [deleteProcess] using h
      | ok response =>
        intro c hc
        simp only [deleteProcess, Bool.not_true, Bool.false_eq_true, if_false,
          List.mem_filter, Bool.and_eq_true, bne_iff_ne, ne_eq] at hc ⊢
        obtain ⟨hmem, hs, hr⟩ := hc
        obtain ⟨⟨p, hp, hps⟩, ⟨q, hq, hqr⟩⟩ := h c hmem
        exact ⟨⟨p, ⟨hp, by rw [hps]; exact hs⟩, hps⟩, ⟨q, ⟨hq, by rw [hqr]; exact hr⟩, hqr⟩⟩
  · intro channelId confirmed res
    cases confirmed with
    | false => simpa [deleteChannel] using h
    | true =>
      cases res with
      | threw => simpa [deleteChannel] using h
      | ok u =>
        intro c hc
        simp only [deleteChannel, Bool.not_true, Bool.false_eq_true, if_false,
          List.mem_filter] at hc ⊢
        exact h c hc.1

/-- C12 on two processes joined by one channel: deleting process 1 or
channel 7 leaves no channel without its processes. -/
theorem deletion_keeps_references_witness :
    channelsReferToProcesses
        (deleteProcess
          { currentSimulation := none
            processes := [{ id := 1, process_name := "A", state := "ready", priority := 0 },
                          { id := 2, process_name := "B", state := "ready", priority := 0 }]
            channels := [{ id := 7, ipc_type := "pipe", sender_id := 1, receiver_id := 2,
                           sender_name := "A", receiver_name := "B" }]
            storedSimulationId := none }
          1 true (.ok { deleted_channels := some 1 })).1
      ∧ channelsReferToProcesses
        (deleteChannel
          { currentSimulation := none
            processes := [{ id := 1, process_name := "A", state := "ready", priority := 0 },
                          { id := 2, process_name := "B", state := "ready", priority := 0 }]
            channels := [{ id := 7, ipc_type := "pipe", sender_id := 1, receiver_id := 2,
                           sender_name := "A", receiver_name := "B" }]
            storedSimulationId := none }
          7 true (.ok ())).1 :=
  have h := deletion_keeps_references
    { currentSimulation := none
      processes := [{ id := 1, process_name := "A", state := "ready", priority := 0 },
                    { id := 2, process_name := "B", state := "ready", priority := 0 }]
      channels := [{ id := 7, ipc_type := "pipe", sender_id := 1, receiver_id := 2,
                     sender_name := "A", receiver_name := "B" }]
      storedSimulationId := none }
    (by simp [channelsReferToProcesses])
  ⟨h.1 1 true _, h.2 7 true _⟩

/-- C15 (the code at the failing input): for the state string constructor the
lookup `classes[state]` finds the member inherited from `Object.prototype`,
which is truthy, so `getStateBadgeClass` returns it and not 'secondary'. -/
theorem getStateBadgeClass_inherited_key :
    getStateBadgeClass "constructor" = JSValue.inherited "constructor"
      ∧ getStateBadgeClass "constructor" ≠ JSValue.str "secondary" := by
  decide

/-- The five process states get their badge class, and every other string that
is not a member name of `Object.prototype` gets 'secondary'. -/
theorem getStateBadgeClass_table (state : String) :
    getStateBadgeClass "ready" = JSValue.str "info"
      ∧ getStateBadgeClass "running" = JSValue.str "success"
      ∧ getStateBadgeClass "waiting" = JSValue.str "warning"
      ∧ getStateBadgeClass "blocked" = JSValue.str "error"
      ∧ getStateBadgeClass "terminated" = JSValue.str "secondary"
      ∧ (classes.lookup state = none → state ∉ objectPrototypeKeys →
          getStateBadgeClass state = JSValue.str "secondary") := by
  refine ⟨by decide, by decide, by decide, by decide, by decide, ?_⟩
  intro h1 h2
  simp [getStateBadgeClass, getProperty, h1, h2]

end Dashboard

end IpcDebugger

/-! ## Visualization: process states -/

namespace IpcDebugger

namespace Visualization

/-- Pointwise reading of `updateFirst`: the element at index `i` is updated
exactly when it passes the test and no earlier element does. -/
theorem updateFirst_getElem? (test : Process → Bool) (f : Process → Process) :
    ∀ (l : List Process) (i : Nat),
      (updateFirst test f l)[i]?
        = (l[i]?).map (fun y => if test y && !(l.take i).any test then f y else y) := by
  intro l
  induction l with
  | nil => intro i; simp [updateFirst]
  | cons p rest ih =>
    intro i
    cases i with
    | zero =>
      by_cases hp : test p = true <;> simp [updateFirst, hp]
    | succ j =>
      by_cases hp : test p = true
      · simp [updateFirst, hp]
      · simp [updateFirst, hp, ih j]

/-- The update of `updateFirst` keeps the length of the list. -/
theorem updateFirst_length (test : Process → Bool) (f : Process → Process) :
    ∀ l : List Process, (updateFirst test f l).length = l.length := by
  intro l
  induction l with
  | nil => rfl
  | cons p rest ih =>
    by_cases hp : test p = true <;> simp [updateFirst, hp, ih]

/-- Marking a process blocked changes no process name. -/
theorem markBlocked_names (ps : List Process) (n : String) :
    (markBlocked ps n).map (fun p => p.process_name) = ps.map (fun p => p.process_name) := by
  unfold markBlocked
  induction ps with
  | nil => rfl
  | cons p rest ih =>
    by_cases hp : (p.process_name == n) = true
    · simp [updateFirst, hp]
    · simp only [updateFirst, hp]
      simpa using ih

/-- Whether an earlier element passes a name test, read on the list of names. -/
theorem any_name_take (ps : List Process) (n : String) (i : Nat) :
    (ps.take i).any (fun q => q.process_name == n)
      = decide (n ∈ (ps.map (fun q => q.process_name)).take i) := by
  rw [← List.map_take]
  apply Bool.eq_iff_iff.mpr
  rw [List.any_eq_true, decide_eq_true_iff, List.mem_map]
  constructor
  · rintro ⟨q, hq, hn⟩
    exact ⟨q, hq, by simpa using hn⟩
  · rintro ⟨q, hq, hn⟩
    exact ⟨q, hq, by simpa using hn⟩

/-- Pointwise reading of `markBlocked`. -/
theorem markBlocked_getElem? (ps : List Process) (n : String) (i : Nat) :
    (markBlocked ps n)[i]?
      = (ps[i]?).map (fun p =>
          if p.process_name = n ∧ n ∉ (ps.map (fun q => q.process_name)).take i
          then { p with state := "blocked" } else p) := by
  unfold markBlocked
  rw [updateFirst_getElem?, any_name_take]
  congr 1
  funext p
  by_cases h1 : p.process_name = n
  · by_cases h2 : n ∈ (ps.map (fun q => q.process_name)).take i
    · simp [h1, h2]
    · simp [h1, h2]
  · simp [h1]

/-- Pointwise reading of the highlighting loop of `showDeadlockAlert`: the
process at index `i` becomes blocked exactly when its name is in the cycle and
no earlier process has the same name; otherwise it is left as it was. -/
theorem foldl_markBlocked_getElem? :
    ∀ (cycle : List String) (ps : List Process) (i : Nat),
      (cycle.foldl markBlocked ps)[i]?
        = (ps[i]?).map (fun p =>
            if p.process_name ∈ cycle
                ∧ p.process_name ∉ (ps.map (fun q => q.process_name)).take i
            then { p with state := "blocked" } else p) := by
  intro cycle
  induction cycle with
  | nil => intro ps i; simp
  | cons n rest ih =>
    intro ps i
    rw [List.foldl_cons, ih, markBlocked_getElem?, markBlocked_names]
    cases hpi : ps[i]? with
    | none => rfl
    | some p =>
      simp only [Option.map_some']
      congr 1
      by_cases h1 : p.process_name = n
      · subst h1
        by_cases h2 : p.process_name ∈ (ps.map (fun q => q.process_name)).take i
        · simp [h2]
        · simp [h2]
      · have h1' : ¬ n = p.process_name := fun h => h1 h.symm
        simp [h1, h1']

/-- Pointwise reading of `updateProcessState`: the process at index `i` gets
the new state exactly when its id is `processId` and no earlier process has
that id. -/
theorem updateProcessState_getElem? (ps : List Process) (processId : Int) (state : String)
    (i : Nat) :
    (updateProcessState ps processId state)[i]?
      = (ps[i]?).map (fun p =>
          if p.id = processId ∧ ∀ q ∈ ps.take i, q.id ≠ processId
          then { p with state := state } else p) := by
  unfold updateProcessState
  rw [updateFirst_getElem?]
  congr 1
  funext p
  beta_reduce
  by_cases h1 : p.id = processId
  · by_cases h2 : ∀ q ∈ ps.take i, q.id ≠ processId
    · have hany : (List.take i ps).any (fun q => q.id == processId) = false := by
        rw [List.any_eq_false]
        intro q hq
        simpa using h2 q hq
      have e : (p.id == processId && !(List.take i ps).any (fun q => q.id == processId))
          = true := by
        simp [h1, hany]
      rw [if_pos e, if_pos ⟨h1, h2⟩]
    · have hany : (List.take i ps).any (fun q => q.id == processId) = true := by
        rw [List.any_eq_true]
        push_neg at h2
        obtain ⟨q, hq, hn⟩ := h2
        exact ⟨q, hq, by simpa using hn⟩
      have e : ¬ (p.id == processId && !(List.take i ps).any (fun q => q.id == processId))
          = true := by
        simp [hany]
      rw [if_neg e, if_neg (fun h => h2 h.2)]
  · have e : ¬ (p.id == processId && !(List.take i ps).any (fun q => q.id == processId))
        = true := by
      simp [h1]
    rw [if_neg e, if_neg (fun h => h1 h.1)]

/-- The loop of `addLiveEvent` keeps the first 20 children. -/
theorem keepLastEvents_eq_take (children : List Child) :
    keepLastEvents children = children.take 20 := by
  induction children using keepLastEvents.induct with
  | case1 cs h ih =>
    rw [keepLastEvents, if_pos h, ih, List.dropLast_eq_take, List.take_take]
    congr 1
    omega
  | case2 cs h =>
    rw [keepLastEvents, if_neg h]
    exact (List.take_of_length_le (by omega)).symm

/-- C2 (as stated, refuted): two processes share the name A and the cycle is
[A]; after `showDeadlockAlert` the second one is still waiting although its
name occurs in the cycle. -/
theorem showDeadlockAlert_skips_namesake :
    (showDeadlockAlert
        { processes := [{ id := 1, process_name := "A", state := "waiting", priority := 0 },
                        { id := 2, process_name := "A", state := "waiting", priority := 0 }]
          channels := []
          currentSimulationId := some 1
          alerts := []
          liveEvents := [] }
        { deadlock_found := true, cycle := some ["A"], processes_involved := none }
        "12:00:00").processes
      = [{ id := 1, process_name := "A", state := "blocked", priority := 0 },
         { id := 2, process_name := "A", state := "waiting", priority := 0 }] := by
  decide

/-- C2 (amended): after `showDeadlockAlert(data)` with a cycle of process names,
every process whose process_name occurs in the cycle and that is the first of
the local list with that name is blocked, its other fields unchanged; so all
processes named in the cycle are blocked whenever names are not shared. -/
theorem showDeadlockAlert_blocks_first_named (v : Model) (data : DeadlockReport) (now : String)
    (cycle : List String) (i : Nat) (p : Process)
    (hc : data.cycle = some cycle) (hp : v.processes[i]? = some p)
    (hin : p.process_name ∈ cycle)
    (hfirst : ∀ q ∈ v.processes.take i, q.process_name ≠ p.process_name) :
    (showDeadlockAlert v data now).processes[i]? = some { p with state := "blocked" } := by
  have hproc : (showDeadlockAlert v data now).processes = cycle.foldl markBlocked v.processes := by
    simp [showDeadlockAlert, hc]
  have hnot : p.process_name ∉ (v.processes.map (fun q => q.process_name)).take i := by
    rw [← List.map_take, List.mem_map]
    rintro ⟨q, hq, hn⟩
    exact hfirst q hq hn
  rw [hproc, foldl_markBlocked_getElem?, hp]
  simp [hin, hnot]

/-- C2 (amended) on the cycle A, B, C of three processes: C becomes blocked. -/
theorem showDeadlockAlert_blocks_first_named_witness :
    (showDeadlockAlert
        { processes := [{ id := 1, process_name := "A", state := "waiting", priority := 0 },
                        { id := 2, process_name := "B", state := "waiting", priority := 0 },
                        { id := 3, process_name := "C", state := "waiting", priority := 0 }]
          channels := []
          currentSimulationId := some 1
          alerts := []
          liveEvents := [] }
        { deadlock_found := true, cycle := some ["A", "B", "C"], processes_involved := none }
        "12:00:00").processes[2]?
      = some { id := 3, process_name := "C", state := "blocked", priority := 0 } :=
  showDeadlockAlert_blocks_first_named _ _ _ ["A", "B", "C"] 2
    { id := 3, process_name := "C", state := "waiting", priority := 0 } rfl rfl
    (by decide) (by decide)

/-- C3 (as stated, refuted): a terminated process is not kept terminated:
`updateProcessState(1, 'running')` makes the terminated process 1 running, and
`showDeadlockAlert` with its name in the cycle makes it blocked. -/
theorem terminated_not_absorbing :
    updateProcessState
        [{ id := 1, process_name := "A", state := "terminated", priority := 0 }] 1 "running"
      = [{ id := 1, process_name := "A", state := "running", priority := 0 }]
    ∧ (showDeadlockAlert
        { processes := [{ id := 1, process_name := "A", state := "terminated", priority := 0 }]
          channels := []
          currentSimulationId := some 1
          alerts := []
          liveEvents := [] }
        { deadlock_found := true, cycle := some ["A"], processes_involved := none }
        "12:00:00").processes
      = [{ id := 1, process_name := "A", state := "blocked", priority := 0 }] := by
  decide

/-- C3 (amended): the client accepts transitions out of terminated. For a
process `p` at index `i` with state terminated: `updateProcessState(processId,
state)` leaves it as it is when its id differs from `processId` or `state` is
terminated, and gives it `state` when it is the first process with id
`processId`; `showDeadlockAlert(data)` leaves it as it is when its name is not
in `data.cycle`, and makes it blocked when its name is in `data.cycle` and it
is the first process with that name. -/
theorem terminated_kept_unless_addressed (ps : List Process) (i : Nat) (p : Process)
    (hp : ps[i]? = some p) (ht : p.state = "terminated") :
    (∀ (processId : Int) (state : String), p.id ≠ processId ∨ state = "terminated" →
        (updateProcessState ps processId state)[i]? = some p)
      ∧ (∀ state : String, (∀ q ∈ ps.take i, q.id ≠ p.id) →
        (updateProcessState ps p.id state)[i]? = some { p with state := state })
      ∧ (∀ (v : Model) (data : DeadlockReport) (now : String), v.processes = ps →
        (∀ cycle, data.cycle = some cycle → p.process_name ∉ cycle) →
        (showDeadlockAlert v data now).processes[i]? = some p)
      ∧ (∀ (v : Model) (data : DeadlockReport) (now : String) (cycle : List String),
        v.processes = ps → data.cycle = some cycle → p.process_name ∈ cycle →
        (∀ q ∈ ps.take i, q.process_name ≠ p.process_name) →
        (showDeadlockAlert v data now).processes[i]? = some { p with state := "blocked" }) := by
  refine ⟨?_, ?_, ?_, ?_⟩
  · intro processId state h
    rw [updateProcessState_getElem?, hp, Option.map_some']
    congr 1
    rcases h with h | h
    · rw [if_neg (fun hh => h hh.1)]
    · subst h
      obtain ⟨id, name, st, prio⟩ := p
      simp only at ht
      subst ht
      simp
  · intro state hfirst
    rw [updateProcessState_getElem?, hp, Option.map_some', if_pos ⟨rfl, hfirst⟩]
  · intro v data now hv hcycle
    cases hc : data.cycle with
    | none =>
      have : (showDeadlockAlert v data now).processes = v.processes := by
        simp [showDeadlockAlert, hc]
      rw [this, hv, hp]
    | some cycle =>
      have : (showDeadlockAlert v data now).processes = cycle.foldl markBlocked v.processes := by
        simp [showDeadlockAlert, hc]
      rw [this, hv, foldl_markBlocked_getElem?, hp, Option.map_some']
      congr 1
      rw [if_neg (fun hh => hcycle cycle hc hh.1)]
  · intro v data now cycle hv hc hin hfirst
    have hproc : (showDeadlockAlert v data now).processes
        = cycle.foldl markBlocked v.processes := by
      simp [showDeadlockAlert, hc]
    have hnot : p.process_name ∉ (ps.map (fun q => q.process_name)).take i := by
      rw [← List.map_take, List.mem_map]
      rintro ⟨q, hq, hn⟩
      exact hfirst q hq hn
    rw [hproc, hv, foldl_markBlocked_getElem?, hp, Option.map_some']
    congr 1
    rw [if_pos ⟨hin, hnot⟩]

/-- C3 (amended) on a two-process list with process 2 terminated: an update
addressed to process 1 keeps it, an update addressed to process 2 makes it
running, a deadlock report naming only A keeps it, and one naming B makes it
blocked. -/
theorem terminated_kept_unless_addressed_witness :
    (updateProcessState
        [{ id := 1, process_name := "A", state := "ready", priority := 0 },
         { id := 2, process_name := "B", state := "terminated", priority := 0 }]
        1 "running")[1]?
      = some { id := 2, process_name := "B", state := "terminated", priority := 0 }
    ∧ (updateProcessState
        [{ id := 1, process_name := "A", state := "ready", priority := 0 },
         { id := 2, process_name := "B", state := "terminated", priority := 0 }]
        2 "running")[1]?
      = some { id := 2, process_name := "B", state := "running", priority := 0 }
    ∧ (showDeadlockAlert
        { processes := [{ id := 1, process_name := "A", state := "ready", priority := 0 },
                        { id := 2, process_name := "B", state := "terminated", priority := 0 }]
          channels := []
          currentSimulationId := some 1
          alerts := []
          liveEvents := [] }
        { deadlock_found := true, cycle := some ["A"], processes_involved := none }
        "12:00:00").processes[1]?
      = some { id := 2, process_name := "B", state := "terminated", priority := 0 }
    ∧ (showDeadlockAlert
        { processes := [{ id := 1, process_name := "A", state := "ready", priority := 0 },
                        { id := 2, process_name := "B", state := "terminated", priority := 0 }]
          channels := []
          currentSimulationId := some 1
          alerts := []
          liveEvents := [] }
        { deadlock_found := true, cycle := some ["A", "B"], processes_involved := none }
        "12:00:00").processes[1]?
      = some { id := 2, process_name := "B", state := "blocked", priority := 0 } :=
  have h := terminated_kept_unless_addressed
    [{ id := 1, process_name := "A", state := "ready", priority := 0 },
     { id := 2, process_name := "B", state := "terminated", priority := 0 }]
    1 { id := 2, process_name := "B", state := "terminated", priority := 0 } rfl rfl
  ⟨h.1 1 "running" (Or.inl (by decide)), h.2.1 "running" (by decide),
    h.2.2.1 _ _ "12:00:00" rfl (by simp),
    h.2.2.2 _ _ "12:00:00" ["A", "B"] rfl rfl (by decide) (by decide)⟩

/-- C8: when the detection request throws or answers with `deadlock_found`
false, `detectDeadlock` leaves the local processes, and the whole model,
unchanged. -/
theorem detectDeadlock_no_mutation (v : Model) (now : String) (res : ApiResult DeadlockReport)
    (h : res = .threw ∨ ∃ response, res = .ok response ∧ response.deadlock_found = false) :
    (detectDeadlock v now res).1.processes = v.processes
      ∧ (detectDeadlock v now res).1 = v := by
  have key : (detectDeadlock v now res).1 = v := by
    unfold detectDeadlock
    cases v.currentSimulationId with
    | none => rfl
    | some id =>
      rcases h with h | ⟨response, h, hf⟩
      · subst h; rfl
      · subst h; simp [hf]
  exact ⟨by rw [key], key⟩

/-- C8 on two waiting processes and a response without deadlock. -/
theorem detectDeadlock_no_mutation_witness :
    (detectDeadlock
        { processes := [{ id := 1, process_name := "A", state := "running", priority := 0 },
                        { id := 2, process_name := "B", state := "waiting", priority := 0 }]
          channels := []
          currentSimulationId := some 1
          alerts := []
          liveEvents := [] }
        "12:00:00"
        (.ok { deadlock_found := false, cycle := some ["A", "B"],
               processes_involved := none })).1.processes
      = [{ id := 1, process_name := "A", state := "running", priority := 0 },
         { id := 2, process_name := "B", state := "waiting", priority := 0 }] :=
  (detectDeadlock_no_mutation _ _ _ (Or.inr ⟨_, rfl, rfl⟩)).1

/-- On a container in which nothing matches `.text-secondary`,
`addLiveEvent(message)` leaves the new event followed by the previous children
in their order, cut to the first 20; so the container holds at most 20
children and the new event is the first. -/
theorem addLiveEvent_keeps_twenty (sel : String → Bool) (prior : List Child)
    (message now : String) (h : ∀ c ∈ prior, c.secondary = false) :
    addLiveEvent sel prior message now = (eventItem sel message now :: prior).take 20
      ∧ (addLiveEvent sel prior message now).length ≤ 20
      ∧ (addLiveEvent sel prior message now).head? = some (eventItem sel message now) := by
  have hany : prior.any (fun c => c.secondary) = false := by
    rw [List.any_eq_false]
    intro c hc
    simp [h c hc]
  have key : addLiveEvent sel prior message now
      = (eventItem sel message now :: prior).take 20 := by
    simp only [addLiveEvent, hany, keepLastEvents_eq_take]
    rfl
  refine ⟨key, ?_, ?_⟩
  · rw [key, List.length_take]
    omega
  · rw [key]
    rfl

/-- A container that already holds 20 events: the new event comes first and
the list is cut back to 20. -/
theorem addLiveEvent_keeps_twenty_witness :
    addLiveEvent (fun _ => false)
          (List.replicate 20 { className := "event-item fade-in", html := "", secondary := false })
          "Message sent: A → B" "12:00:00"
        = (eventItem (fun _ => false) "Message sent: A → B" "12:00:00"
            :: List.replicate 20
                { className := "event-item fade-in", html := "", secondary := false }).take 20
      ∧ (addLiveEvent (fun _ => false)
          (List.replicate 20 { className := "event-item fade-in", html := "", secondary := false })
          "Message sent: A → B" "12:00:00").length ≤ 20
      ∧ (addLiveEvent (fun _ => false)
          (List.replicate 20 { className := "event-item fade-in", html := "", secondary := false })
          "Message sent: A → B" "12:00:00").head?
        = some (eventItem (fun _ => false) "Message sent: A → B" "12:00:00") :=
  addLiveEvent_keeps_twenty _ _ _ _ (by simp)

/-! ## Visualization: idempotent highlighting, bottleneck alerts, message frames -/

/-- The highlighting loop changes no process name. -/
theorem foldl_markBlocked_names :
    ∀ (cycle : List String) (ps : List Process),
      (cycle.foldl markBlocked ps).map (fun p => p.process_name)
        = ps.map (fun p => p.process_name) := by
  intro cycle
  induction cycle with
  | nil => intro ps; rfl
  | cons n rest ih =>
    intro ps
    rw [List.foldl_cons, ih, markBlocked_names]

/-- C11: applying `showDeadlockAlert` twice with the same report leaves every
process as applying it once does. -/
theorem showDeadlockAlert_idempotent (v : Model) (data : DeadlockReport) (now later : String) :
    (showDeadlockAlert (showDeadlockAlert v data now) data later).processes
      = (showDeadlockAlert v data now).processes := by
  cases hc : data.cycle with
  | none => simp [showDeadlockAlert, hc]
  | some cycle =>
    have once : ∀ (w : Model) (t : String),
        (showDeadlockAlert w data t).processes = cycle.foldl markBlocked w.processes := by
      intro w t
      simp [showDeadlockAlert, hc]
    rw [once, once]
    apply List.ext_getElem?
    intro i
    rw [foldl_markBlocked_getElem?, foldl_markBlocked_names, foldl_markBlocked_getElem?]
    cases v.processes[i]? with
    | none => rfl
    | some p =>
      simp only [Option.map_some']
      congr 1
      by_cases h : p.process_name ∈ cycle
          ∧ p.process_name ∉ (v.processes.map (fun q => q.process_name)).take i
      · simp [h]
      · rw [if_neg h, if_neg h]

/-- C13 (the code at the failing input): with one process and two finished
messages next to each other, one call of `drawCanvas` removes the first and
leaves the second in the list: after `splice(0, 1)` the second message sits at
index 0 and index 1, the next one `forEach` visits, is empty. -/
theorem drawCanvas_leaves_finished_message :
    (drawCanvas
        [{ id := 1, process_name := "A", state := "running", priority := 0 }] []
        [{ startX := 0, startY := 0, endX := 10, endY := 0, progress := 1 },
         { startX := 10, startY := 0, endX := 0, endY := 0, progress := 1 }]).1
      = [{ startX := 10, startY := 0, endX := 0, endY := 0, progress := 1 }] := by
  decide

/-- C14: for a resolved analysis request, `analyzeBottleneck` appends exactly
one alert, for the first entry of `process_analysis` with `is_bottleneck` set,
whatever follows that entry; and it appends no alert when `process_analysis`
is absent, empty or without such an entry. -/
theorem analyzeBottleneck_alerts_first (v : Model) (now : String) (id : Int)
    (response : BottleneckResponse) (hid : v.currentSimulationId = some id) :
    (∀ (before after : List BottleneckData) (entry : BottleneckData),
        response.process_analysis = some (before ++ entry :: after) →
        (∀ x ∈ before, x.is_bottleneck = false) → entry.is_bottleneck = true →
        (analyzeBottleneck v now (.ok response)).1.alerts
          = v.alerts ++ [Alert.bottleneck entry now])
      ∧ ((∀ analysis, response.process_analysis = some analysis →
            ∀ x ∈ analysis, x.is_bottleneck = false) →
        (analyzeBottleneck v now (.ok response)).1.alerts = v.alerts)
      ∧ ((analyzeBottleneck v now (.ok response)).1.alerts ≠ v.alerts ↔
          ∃ analysis, response.process_analysis = some analysis ∧ analysis ≠ []
            ∧ ∃ x ∈ analysis, x.is_bottleneck = true) := by
  have hnone : ∀ analysis : List BottleneckData, (∀ x ∈ analysis, x.is_bottleneck = false) →
      analysis.filter (fun p => p.is_bottleneck) = [] := by
    intro analysis hall
    rw [List.filter_eq_nil_iff]
    intro x hx
    simp [hall x hx]
  have hfirst : ∀ (before after : List BottleneckData) (entry : BottleneckData),
      (∀ x ∈ before, x.is_bottleneck = false) → entry.is_bottleneck = true →
      (before ++ entry :: after).filter (fun p => p.is_bottleneck)
        = entry :: after.filter (fun p => p.is_bottleneck) := by
    intro before after entry hb he
    rw [List.filter_append, hnone before hb, List.nil_append, List.filter_cons, if_pos he]
  have part1 : ∀ (before after : List BottleneckData) (entry : BottleneckData),
      response.process_analysis = some (before ++ entry :: after) →
      (∀ x ∈ before, x.is_bottleneck = false) → entry.is_bottleneck = true →
      (analyzeBottleneck v now (.ok response)).1.alerts
        = v.alerts ++ [Alert.bottleneck entry now] := by
    intro before after entry hpa hb he
    have hlen : 0 < (before ++ entry :: after).length := by simp
    simp only [analyzeBottleneck, hid, hpa, hlen, if_true, hfirst before after entry hb he]
    rfl
  have part2 : (∀ analysis, response.process_analysis = some analysis →
        ∀ x ∈ analysis, x.is_bottleneck = false) →
      (analyzeBottleneck v now (.ok response)).1.alerts = v.alerts := by
    intro hall
    cases hpa : response.process_analysis with
    | none => simp [analyzeBottleneck, hid, hpa]
    | some analysis =>
      by_cases hlen : 0 < analysis.length
      · simp only [analyzeBottleneck, hid, hpa, hlen, if_true, hnone analysis (hall analysis hpa)]
      · simp only [analyzeBottleneck, hid, hpa, hlen, if_false]
  refine ⟨part1, part2, ?_, ?_⟩
  · intro hne
    by_contra hex
    apply hne
    apply part2
    intro analysis hpa x hx
    by_contra hflag
    apply hex
    refine ⟨analysis, hpa, ?_, x, hx, by simpa using hflag⟩
    intro hnil
    rw [hnil] at hx
    exact absurd hx (List.not_mem_nil x)
  · rintro ⟨analysis, hpa, hnonempty, x, hx, hflag⟩
    clear hnonempty
    have hfind : ∃ before entry after, analysis = before ++ entry :: after
        ∧ (∀ y ∈ before, y.is_bottleneck = false) ∧ entry.is_bottleneck = true := by
      clear hpa
      induction analysis with
      | nil => exact absurd hx (List.not_mem_nil x)
      | cons a rest ih =>
        by_cases ha : a.is_bottleneck = true
        · exact ⟨[], a, rest, rfl, by simp, ha⟩
        · have hxr : x ∈ rest := by
            rcases List.mem_cons.mp hx with h | h
            · exact absurd (h ▸ hflag) ha
            · exact h
          obtain ⟨before, entry, after, he, hb, hf⟩ := ih hxr
          refine ⟨a :: before, entry, after, by rw [he]; rfl, ?_, hf⟩
          intro y hy
          rcases List.mem_cons.mp hy with h | h
          · rw [h]; simpa using ha
          · exact hb y h
    obtain ⟨before, entry, after, he, hb, hf⟩ := hfind
    rw [part1 before after entry (he ▸ hpa) hb hf]
    simp

/-- C14 on an analysis with two flagged entries: only the first gets an alert. -/
theorem analyzeBottleneck_alerts_first_witness :
    (analyzeBottleneck
        { processes := [], channels := [], currentSimulationId := some 1, alerts := [],
          liveEvents := [] }
        "12:00:00"
        (.ok { process_analysis := some (
          [{ process_name := some "A", avg_delay := some 10, message_count := some 3,
             is_bottleneck := false },
           { process_name := some "B", avg_delay := some 500, message_count := some 10,
             is_bottleneck := true },
           { process_name := some "C", avg_delay := some 700, message_count := some 4,
             is_bottleneck := true }]) })).1.alerts
      = [Alert.bottleneck
          { process_name := some "B", avg_delay := some 500, message_count := some 10,
            is_bottleneck := true } "12:00:00"] :=
  (analyzeBottleneck_alerts_first _ "12:00:00" 1 _ rfl).1
    [{ process_name := some "A", avg_delay := some 10, message_count := some 3,
       is_bottleneck := false }]
    [{ process_name := some "C", avg_delay := some 700, message_count := some 4,
       is_bottleneck := true }]
    { process_name := some "B", avg_delay := some 500, message_count := some 10,
      is_bottleneck := true }
    rfl (by simp) rfl

/-- When something in the container matches `.text-secondary`, `addLiveEvent`
empties the container and leaves only the new event. -/
theorem addLiveEvent_of_match (sel : String → Bool) (children : List Child)
    (message now : String) (h : children.any (fun c => c.secondary) = true) :
    addLiveEvent sel children message now = [eventItem sel message now] := by
  unfold addLiveEvent
  simp only [h, if_true, keepLastEvents_eq_take]
  rfl

/-- The new event is the first child after `addLiveEvent`. -/
theorem addLiveEvent_head (sel : String → Bool) (children : List Child) (message now : String) :
    ∃ rest, addLiveEvent sel children message now = eventItem sel message now :: rest := by
  unfold addLiveEvent
  simp only [keepLastEvents_eq_take]
  exact ⟨_, rfl⟩

/-- An event whose own markup matches `.text-secondary` is taken for the
placeholder by the next call: the container is emptied and only the new event
is left, whatever the container held. -/
theorem addLiveEvent_after_marked_event (sel : String → Bool) (prior : List Child)
    (marked now message later : String) (h : (eventItem sel marked now).secondary = true) :
    addLiveEvent sel (addLiveEvent sel prior marked now) message later
      = [eventItem sel message later] := by
  obtain ⟨rest, hrest⟩ := addLiveEvent_head sel prior marked now
  apply addLiveEvent_of_match
  rw [hrest, List.any_cons, h, Bool.true_or]

/-- C9 (the code at the failing input): on an empty container, an event whose
message is a `span` of class `text-secondary` followed by a second event
leaves one child, the second event; the first event, which is no placeholder,
is wiped, where the claim has the new event followed by the previous one. Here
the selector test holds of the markup of the first event only. -/
theorem addLiveEvent_wipes_marked_event :
    addLiveEvent
        (fun html => html == "\n        <div class=\"event-timestamp\">12:00:00</div>\n        <div class=\"event-message\"><span class=\"text-secondary\">x</span></div>\n    ")
        [] "<span class=\"text-secondary\">x</span>" "12:00:00"
      = [{ className := "event-item fade-in"
           html := "\n        <div class=\"event-timestamp\">12:00:00</div>\n        <div class=\"event-message\"><span class=\"text-secondary\">x</span></div>\n    "
           secondary := true }]
    ∧ addLiveEvent
        (fun html => html == "\n        <div class=\"event-timestamp\">12:00:00</div>\n        <div class=\"event-message\"><span class=\"text-secondary\">x</span></div>\n    ")
        [{ className := "event-item fade-in"
           html := "\n        <div class=\"event-timestamp\">12:00:00</div>\n        <div class=\"event-message\"><span class=\"text-secondary\">x</span></div>\n    "
           secondary := true }]
        "second" "12:00:01"
      = [{ className := "event-item fade-in"
           html := "\n        <div class=\"event-timestamp\">12:00:01</div>\n        <div class=\"event-message\">second</div>\n    "
           secondary := false }] := by
  constructor
  · simp only [addLiveEvent, keepLastEvents_eq_take]
    decide
  · rw [addLiveEvent_of_match _ _ _ _ (by decide)]
    decide

/-- A cycle that names two processes of the same name, [A, A]: the first is
blocked twice over and the second is not reached. -/
theorem showDeadlockAlert_repeated_name :
    (showDeadlockAlert
        { processes := [{ id := 1, process_name := "A", state := "waiting", priority := 0 },
                        { id := 2, process_name := "A", state := "waiting", priority := 0 }]
          channels := []
          currentSimulationId := some 1
          alerts := []
          liveEvents := [] }
        { deadlock_found := true, cycle := some ["A", "A"], processes_involved := none }
        "12:00:00").processes
      = [{ id := 1, process_name := "A", state := "blocked", priority := 0 },
         { id := 2, process_name := "A", state := "waiting", priority := 0 }] := by
  decide

end Visualization

end IpcDebugger
